import Mathlib

/-!
A verification development for the recommendation pipeline of the
Fashion_Recommendar1 repository (`app.py`).

The pipeline logic of `app.py` is shallowly embedded below:

* `get_combination_feedback_parse` — the response-parsing tail of
  `get_combination_feedback` (the Compatibility Judge).  The external
  generative call returns a list of streamed text fragments; everything the
  function does with them (join, code-fence stripping, `json.loads`,
  `dict.get` with defaults, the `except` fallback) is embedded.  Python's
  `json.loads` and the `str` operations are standard-library calls; they are
  modelled here character-for-character (`json_loads`, `replaceAll`,
  `pyStrip`).
* `recommend_complementary_products` — the Complementary Product Filter.
* `get_recommendations` / `recommend_similar_images` — the Text and Visual
  Similarity Engines.  The TF-IDF transform and `cosine_similarity` are
  scikit-learn library calls; the embedded functions are parameterised by the
  score vector those calls return, and `numpy.argsort` is modelled as the
  stable ascending argsort (indices ordered lexicographically by
  (score, index)).
-/

namespace FashionRec

/-! ## Python string primitives used by `get_combination_feedback` -/

/-- Model of Python `str.replace(pattern, repl)` (replace all occurrences,
scanning left to right), over character lists.  `fuel` bounds the recursion;
`replaceAll` passes the length of the string, which suffices because every
step consumes at least one character when the pattern is non-empty. -/
def replaceAllAux : Nat → List Char → List Char → List Char → List Char
  | 0, s, _, _ => s
  | fuel + 1, s, pattern, repl =>
    match s with
    | [] => []
    | c :: rest =>
      if pattern ≠ [] ∧ pattern.isPrefixOf s then
        repl ++ replaceAllAux fuel (s.drop pattern.length) pattern repl
      else
        c :: replaceAllAux fuel rest pattern repl

def replaceAll (s pattern repl : List Char) : List Char :=
  replaceAllAux s.length s pattern repl

/-- Whitespace characters removed by Python `str.strip()`. -/
def isPySpace (c : Char) : Bool :=
  c == ' ' || c == '\t' || c == '\n' || c == '\r' ||
  c == Char.ofNat 11 || c == Char.ofNat 12

/-- Model of Python `str.strip()`. -/
def pyStrip (s : List Char) : List Char :=
  ((s.dropWhile isPySpace).reverse.dropWhile isPySpace).reverse

/-- Model of Python `str.lower()` (the catalog attributes and keyword lists
are ASCII, where the two agree). -/
def pyLower (s : String) : String :=
  String.mk (s.data.map Char.toLower)

/-! ## A model of Python `json.loads`

JSON values as produced by `json.loads`.  Numbers keep their source lexeme:
no claim compares numeric values, only their (non-)string-ness matters. -/

inductive JValue where
  | jnull : JValue
  | jbool : Bool → JValue
  | jnum : String → JValue
  | jstr : String → JValue
  | jarr : List JValue → JValue
  | jobj : List (String × JValue) → JValue
deriving Repr, Inhabited

def skipWs : List Char → List Char
  | [] => []
  | c :: cs =>
    if c == ' ' || c == '\t' || c == '\n' || c == '\r' then skipWs cs
    else c :: cs

def hexVal (c : Char) : Option Nat :=
  if '0' ≤ c ∧ c ≤ '9' then some (c.toNat - '0'.toNat)
  else if 'a' ≤ c ∧ c ≤ 'f' then some (c.toNat - 'a'.toNat + 10)
  else if 'A' ≤ c ∧ c ≤ 'F' then some (c.toNat - 'A'.toNat + 10)
  else none

def escChar : Char → Option Char
  | '"' => some '"'
  | '\\' => some '\\'
  | '/' => some '/'
  | 'b' => some (Char.ofNat 8)
  | 'f' => some (Char.ofNat 12)
  | 'n' => some '\n'
  | 'r' => some '\r'
  | 't' => some '\t'
  | _ => none

/-- Parse the remainder of a JSON string literal (the opening quote has been
consumed); returns the decoded string and the rest of the input. -/
def parseStringRest : List Char → Option (String × List Char)
  | [] => none
  | '"' :: cs => some ("", cs)
  | '\\' :: 'u' :: h1 :: h2 :: h3 :: h4 :: cs =>
    match hexVal h1, hexVal h2, hexVal h3, hexVal h4 with
    | some a, some b, some c, some d =>
      (parseStringRest cs).map
        (fun p => (String.mk (Char.ofNat (((a * 16 + b) * 16 + c) * 16 + d) :: p.1.data), p.2))
    | _, _, _, _ => none
  | '\\' :: e :: cs =>
    match escChar e with
    | some ch => (parseStringRest cs).map (fun p => (String.mk (ch :: p.1.data), p.2))
    | none => none
  | c :: cs => (parseStringRest cs).map (fun p => (String.mk (c :: p.1.data), p.2))

/-- Longest prefix of decimal digits. -/
def spanDigits : List Char → List Char × List Char
  | [] => ([], [])
  | c :: cs =>
    if c.isDigit then
      let p := spanDigits cs
      (c :: p.1, p.2)
    else ([], c :: cs)

def parseFrac : List Char → Option (List Char × List Char)
  | '.' :: rest =>
    let p := spanDigits rest
    if p.1.isEmpty then none else some ('.' :: p.1, p.2)
  | cs => some ([], cs)

def parseExp : List Char → Option (List Char × List Char)
  | [] => some ([], [])
  | e :: rest =>
    if e == 'e' || e == 'E' then
      match rest with
      | [] => none
      | s :: rest2 =>
        if s == '+' || s == '-' then
          let p := spanDigits rest2
          if p.1.isEmpty then none else some (e :: s :: p.1, p.2)
        else
          let p := spanDigits rest
          if p.1.isEmpty then none else some (e :: p.1, p.2)
    else some ([], e :: rest)

def parseNumber (cs : List Char) : Option (JValue × List Char) := do
  let sp : List Char × List Char :=
    match cs with
    | '-' :: rest => (['-'], rest)
    | _ => ([], cs)
  let ip := spanDigits sp.2
  if ip.1.isEmpty then none
  else do
    let fr ← parseFrac ip.2
    let ex ← parseExp fr.2
    some (JValue.jnum (String.mk (sp.1 ++ ip.1 ++ fr.1 ++ ex.1)), ex.2)

def stripLit : List Char → List Char → Option (List Char)
  | [], cs => some cs
  | _ :: _, [] => none
  | p :: ps, c :: cs => if p == c then stripLit ps cs else none

mutual

def parseValue : Nat → List Char → Option (JValue × List Char)
  | 0, _ => none
  | fuel + 1, cs =>
    match skipWs cs with
    | [] => none
    | '"' :: rest => (parseStringRest rest).map (fun p => (JValue.jstr p.1, p.2))
    | '{' :: rest => parseObjRest fuel rest true []
    | '[' :: rest => parseArrRest fuel rest true []
    | 't' :: rest => (stripLit ['r', 'u', 'e'] rest).map (fun r => (JValue.jbool true, r))
    | 'f' :: rest => (stripLit ['a', 'l', 's', 'e'] rest).map (fun r => (JValue.jbool false, r))
    | 'n' :: rest => (stripLit ['u', 'l', 'l'] rest).map (fun r => (JValue.jnull, r))
    | c :: rest => if c == '-' || c.isDigit then parseNumber (c :: rest) else none

def parseObjRest : Nat → List Char → Bool → List (String × JValue) → Option (JValue × List Char)
  | 0, _, _, _ => none
  | fuel + 1, cs, allowClose, acc =>
    match skipWs cs with
    | '}' :: rest => if allowClose then some (JValue.jobj acc.reverse, rest) else none
    | '"' :: rest => do
      let ks ← parseStringRest rest
      match skipWs ks.2 with
      | ':' :: rest2 => do
        let v ← parseValue fuel rest2
        match skipWs v.2 with
        | ',' :: rest3 => parseObjRest fuel rest3 false ((ks.1, v.1) :: acc)
        | '}' :: rest3 => some (JValue.jobj ((ks.1, v.1) :: acc).reverse, rest3)
        | _ => none
      | _ => none
    | _ => none

def parseArrRest : Nat → List Char → Bool → List JValue → Option (JValue × List Char)
  | 0, _, _, _ => none
  | fuel + 1, cs, allowClose, acc =>
    match skipWs cs with
    | ']' :: rest => if allowClose then some (JValue.jarr acc.reverse, rest) else none
    | cs2 => do
      let v ← parseValue fuel cs2
      match skipWs v.2 with
      | ',' :: rest2 => parseArrRest fuel rest2 false (v.1 :: acc)
      | ']' :: rest2 => some (JValue.jarr ((v.1 :: acc)).reverse, rest2)
      | _ => none

end

/-- Model of Python `json.loads`: parse one JSON value, allow surrounding
whitespace, require the whole input to be consumed; any failure is `none`
(in Python, a raised `JSONDecodeError`).  The fuel `2 * length + 8` bounds
the call depth, which genuine parses never exceed since every two nested
calls consume at least one character. -/
def json_loads (s : String) : Option JValue := do
  let v ← parseValue (2 * s.data.length + 8) s.data
  match skipWs v.2 with
  | [] => some v.1
  | _ => none

/-- Model of Python `dict.get` on the object built by `json.loads`: for
duplicate keys the later entry wins, as in a Python dict built by insertion. -/
def objGet (fields : List (String × JValue)) (key : String) : Option JValue :=
  (fields.reverse.find? (fun kv => kv.1 == key)).map (fun kv => kv.2)

/-! ## Compatibility Judge: `get_combination_feedback`, response handling

`app.py` lines 99-112.  The generative call returns streamed fragments
(`all_responses`); the code joins them, strips markdown code fences, parses
JSON, and reads the `decision` / `reason` fields with defaults; every
exception in that block is caught and turned into
`("Unknown", "Response parsing error")`. -/

/-- `cleaned_response = concatenated.replace('```json','').replace('```','').strip()`. -/
def cleanResponse (fragments : List String) : String :=
  let concatenated := (fragments.map String.data).flatten
  let step1 := replaceAll concatenated "```json".data []
  let step2 := replaceAll step1 "```".data []
  String.mk (pyStrip step2)

/-- The parsing tail of `get_combination_feedback`.  A Python value of any
JSON shape can be returned for `decision` / `reason` (the code does not check
that the fields are strings), hence the `JValue × JValue` result:

* `json.loads` fails, or succeeds with a non-dict (then `.get` raises
  `AttributeError`): the `except` arm returns
  `("Unknown", "Response parsing error")`;
* `json.loads` yields a dict: `dict.get` with defaults `"Unknown"` and
  `"No reason provided"`. -/
def get_combination_feedback_parse (fragments : List String) : JValue × JValue :=
  match json_loads (cleanResponse fragments) with
  | some (JValue.jobj fields) =>
    ((objGet fields "decision").getD (JValue.jstr "Unknown"),
     (objGet fields "reason").getD (JValue.jstr "No reason provided"))
  | _ => (JValue.jstr "Unknown", JValue.jstr "Response parsing error")

/-! ## Catalog rows and the Complementary Product Filter

`app.py` lines 123-159.  A catalog row carries the columns the filter reads;
`ProjRow` is the projection `[['productDisplayName', 'baseColour', 'usage',
'subCategory', 'gender']]` returned to the caller. -/

structure Row where
  id : Nat
  productDisplayName : String
  baseColour : String
  usage : String
  subCategory : String
  gender : String
deriving Repr, DecidableEq, Inhabited

structure ProjRow where
  productDisplayName : String
  baseColour : String
  usage : String
  subCategory : String
  gender : String
deriving Repr, DecidableEq, Inhabited

def projRow (r : Row) : ProjRow :=
  ⟨r.productDisplayName, r.baseColour, r.usage, r.subCategory, r.gender⟩

/-- Python's `needle in hay` substring test. -/
def strContains (hay needle : String) : Bool :=
  (List.range (hay.data.length + 1)).any (fun k => needle.data.isPrefixOf (hay.data.drop k))

def color_keywords : List String := ["blue", "white", "black", "red"]

def usage_keywords : List String := ["casual", "formal", "party"]

/-- `next((color for color in color_keywords if color in ai_feedback), None)` —
the FIRST keyword occurring anywhere in the (already lowercased) feedback. -/
def extracted_color (ai_feedback : String) : Option String :=
  color_keywords.find? (fun c => strContains ai_feedback c)

def extracted_usage (ai_feedback : String) : Option String :=
  usage_keywords.find? (fun u => strContains ai_feedback u)

/-- The filter used when both a colour and a usage keyword were extracted
from the rationale: all four columns are compared case-insensitively
(`.str.lower()` on the column, lowercased constants on the right).
`sd` is `selected_details`, the first catalog row among the selected ids. -/
def extractedPred (c u : String) (sd : Row) (r : Row) : Bool :=
  (pyLower r.baseColour) == c && (pyLower r.usage) == u &&
  (pyLower r.gender) == (pyLower sd.gender) &&
  (pyLower r.subCategory) == (pyLower sd.subCategory)

/-- The fallback filter: raw (case-sensitive) comparison of `baseColour`,
`usage` and `subCategory` against the selected row, but `gender` is compared
raw against the LOWERCASED selected gender (`selected_gender`). -/
def fallbackPred (sd : Row) (r : Row) : Bool :=
  r.baseColour == sd.baseColour && r.usage == sd.usage &&
  r.gender == (pyLower sd.gender) && r.subCategory == sd.subCategory

/-- The predicate actually applied to the catalog: the extracted filter when
both keyword extractions succeed, the fallback filter otherwise. -/
def activePred (reason : String) (sd : Row) : Row → Bool :=
  match extracted_color (pyLower reason), extracted_usage (pyLower reason) with
  | some c, some u => extractedPred c u sd
  | _, _ => fallbackPred sd

/-- Embedding of `recommend_complementary_products` (lines 123-159).

* `decision != 'yes'` returns an empty frame.
* Otherwise the code first loads the selected images;
  `load_image_from_dataset` evaluates `data[data['id']==pid]['filename'].iloc[0]`
  outside its `try`, so a selected id with no catalog row raises `IndexError`
  out of the function — modelled as `none` (the image file I/O itself is
  caught inside `load_image_from_dataset` and cannot escape).
* `selected_details = data[data['id'].isin(ids)].iloc[0]` — the first catalog
  row whose id is selected; `iloc[0]` on an empty selection also raises.
* The result is the filtered catalog projected to the five display columns. -/
def recommend_complementary_products
    (user_selected_product_ids : List Nat) (decision reason : String)
    (data : List Row) : Option (List ProjRow) :=
  if decision = "yes" then
    if user_selected_product_ids.all (fun pid => data.any (fun r => r.id == pid)) then
      match data.find? (fun r => user_selected_product_ids.contains r.id) with
      | none => none
      | some sd => some ((data.filter (activePred reason sd)).map projRow)
    else none
  else some []

/-! ## Similarity engines: `get_recommendations` and `recommend_similar_images`

`app.py` lines 67-72 and 82-86.  Both compute a score vector with
scikit-learn's `cosine_similarity` (an external library call; the embedded
functions are parameterised by the vector it returns, one score per
catalog/table row) and then select indices with `numpy.argsort`.

`numpy.argsort(a)` is modelled as the stable ascending argsort: the
permutation of `range n` ordered lexicographically by `(a[i], i)`. -/

/-- The order realising the stable ascending argsort of `sims`. -/
def argsortLE (sims : List ℚ) (i j : Nat) : Prop :=
  sims.getD i 0 < sims.getD j 0 ∨ (sims.getD i 0 = sims.getD j 0 ∧ i ≤ j)

instance argsortLE.decRel (sims : List ℚ) : DecidableRel (argsortLE sims) := by
  unfold argsortLE
  exact fun i j => inferInstance

instance argsortLE.isTotal (sims : List ℚ) : IsTotal Nat (argsortLE sims) := by
  constructor
  intro i j
  rcases lt_trichotomy (sims.getD i 0) (sims.getD j 0) with h | h | h
  · exact Or.inl (Or.inl h)
  · rcases Nat.le_total i j with hij | hij
    · exact Or.inl (Or.inr ⟨h, hij⟩)
    · exact Or.inr (Or.inr ⟨h.symm, hij⟩)
  · exact Or.inr (Or.inl h)

instance argsortLE.isTrans (sims : List ℚ) : IsTrans Nat (argsortLE sims) := by
  constructor
  rintro i j k (h₁ | ⟨h₁e, h₁le⟩) (h₂ | ⟨h₂e, h₂le⟩)
  · exact Or.inl (h₁.trans h₂)
  · exact Or.inl (h₂e ▸ h₁)
  · exact Or.inl (h₁e ▸ h₂)
  · exact Or.inr ⟨h₁e.trans h₂e, h₁le.trans h₂le⟩

/-- Model of `numpy.argsort(sims)`: indices of `sims` in stable ascending
order of score. -/
def argsort (sims : List ℚ) : List Nat :=
  List.insertionSort (argsortLE sims) (List.range sims.length)

/-- The index selection of `get_recommendations`:
`similarities.argsort()[-50:][::-1]` — the last (at most) 50 indices of the
ascending argsort, reversed. -/
def get_rec_indices (similarities : List ℚ) : List Nat :=
  ((argsort similarities).drop (similarities.length - 50)).reverse

/-- Embedding of `get_recommendations` (lines 67-72): returns
`data.iloc[indices]`, the catalog rows at the selected positions.
`similarities` is the output of
`cosine_similarity(vectorizer.transform([user_input]), tfidf_matrix)`,
one score per catalog row. -/
def get_recommendations {α : Type} (similarities : List ℚ) (data : List α) : List α :=
  (get_rec_indices similarities).filterMap (fun i => data.get? i)

/-- The index selection of `recommend_similar_images`:
`np.argsort(scores)[::-1][:top_n]`. -/
def rsi_indices (scores : List ℚ) (top_n : Nat) : List Nat :=
  ((argsort scores).reverse).take top_n

/-- Embedding of `recommend_similar_images` (lines 82-86): the
`(image_paths[i], scores[i])` pairs at the selected positions.  Indexing is
total (`getD`) because the embedding table and the path table are parallel
(one row each per indexed image). -/
def recommend_similar_images (scores : List ℚ) (image_paths : List String)
    (top_n : Nat := 16) : List (String × ℚ) :=
  (rsi_indices scores top_n).map (fun i => (image_paths.getD i "", scores.getD i 0))

/-- Models the term counting of scikit-learn's fitted
`TfidfVectorizer.transform([q])`: the raw occurrence count of each vocabulary
term in the tokenized query.  The tf-idf vector is this count vector scaled
by per-term idf weights and l2-normalised, so the count vector being zero is
equivalent to the tf-idf vector being zero. -/
def queryTermCounts (vocab : List String) (queryTerms : List String) : List Nat :=
  vocab.map (fun t => queryTerms.count t)

/-- Models the scikit-learn score vector for a query whose tf-idf vector is
zero (empty or fully out-of-vocabulary query): `cosine_similarity` keeps
zero rows zero under normalisation and every dot product with a zero vector
is `0.0`, so the score of every one of the `nRows` catalog rows is zero. -/
def zeroQuerySimilarities (nRows : Nat) : List ℚ :=
  List.replicate nRows 0

/-! ## Concrete catalogs used by the witnesses and counterexamples -/

/-- Catalog row A of the outfit scenario: blue / casual / topwear / men. -/
def rowA : Row := ⟨1, "A", "Blue", "Casual", "Topwear", "Men"⟩

/-- Catalog row B: same attributes as A. -/
def rowB : Row := ⟨2, "B", "Blue", "Casual", "Topwear", "Men"⟩

/-- Catalog row C: blue / casual / bottomwear / men. -/
def rowC : Row := ⟨3, "C", "Blue", "Casual", "Bottomwear", "Men"⟩

/-- Selected row of the partial-extraction scenario (capitalised attributes). -/
def rowX : Row := ⟨1, "X", "Blue", "Casual", "Topwear", "Men"⟩

/-- A lowercase twin of `rowX` under every case-insensitive comparison. -/
def rowY : Row := ⟨2, "Y", "blue", "casual", "topwear", "men"⟩

/-- Selected row of the gender-case scenario; raw gender `"Men"`. -/
def rowG : Row := ⟨1, "G", "Blue", "Casual", "Topwear", "Men"⟩

/-- A row identical to `rowG` except that its raw gender is already
lowercase, so it equals `rowG`'s lowercased gender. -/
def rowH : Row := ⟨2, "H", "Blue", "Casual", "Topwear", "men"⟩

/-- A row whose raw attributes satisfy its own fallback filter (its gender is
already lowercase). -/
def rowW : Row := ⟨1, "W", "Blue", "Casual", "Topwear", "men"⟩

/-! ## Helper lemmas -/

theorem pairwise_pair_sublist {α : Type} {R : α → α → Prop} {l : List α}
    (hp : l.Pairwise R) :
    ∀ ⦃a b : α⦄, a ∈ l → b ∈ l → a ≠ b → ¬ R b a → List.Sublist [a, b] l := by
  induction hp with
  | nil =>
    intro a b ha _ _ _
    exact absurd ha (List.not_mem_nil a)
  | @cons c t hc hpt ih =>
    intro a b ha hb hab hnr
    by_cases hac : a = c
    · subst hac
      have hbt : b ∈ t := by
        rcases List.mem_cons.mp hb with h | h
        · exact absurd h.symm hab
        · exact h
      exact (List.singleton_sublist.mpr hbt).cons₂ a
    · have hat : a ∈ t := by
        rcases List.mem_cons.mp ha with h | h
        · exact absurd h hac
        · exact h
      by_cases hbc : b = c
      · subst hbc
        exact absurd (hc a hat) hnr
      · have hbt : b ∈ t := by
          rcases List.mem_cons.mp hb with h | h
          · exact absurd h hbc
          · exact h
        exact (ih hat hbt hab hnr).cons c

theorem argsortLE_le {sims : List ℚ} {i j : Nat} (h : argsortLE sims i j) :
    sims.getD i 0 ≤ sims.getD j 0 := by
  rcases h with h | ⟨h, _⟩
  · exact le_of_lt h
  · exact le_of_eq h

theorem argsort_perm (sims : List ℚ) : List.Perm (argsort sims) (List.range sims.length) :=
  List.perm_insertionSort _ _

theorem argsort_pairwise (sims : List ℚ) : (argsort sims).Pairwise (argsortLE sims) :=
  List.sorted_insertionSort _ _

theorem mem_argsort {sims : List ℚ} {i : Nat} : i ∈ argsort sims ↔ i < sims.length :=
  (argsort_perm sims).mem_iff.trans List.mem_range

theorem length_argsort (sims : List ℚ) : (argsort sims).length = sims.length :=
  (argsort_perm sims).length_eq.trans (List.length_range _)

theorem get_rec_indices_length (sims : List ℚ) :
    (get_rec_indices sims).length = min sims.length 50 := by
  unfold get_rec_indices
  rw [List.length_reverse, List.length_drop, length_argsort]
  omega

theorem mem_get_rec_indices {sims : List ℚ} {i : Nat} (h : i ∈ get_rec_indices sims) :
    i < sims.length := by
  unfold get_rec_indices at h
  rw [List.mem_reverse] at h
  exact mem_argsort.mp (List.drop_subset _ _ h)

theorem get_rec_indices_pairwise (sims : List ℚ) :
    (get_rec_indices sims).Pairwise (fun i j => argsortLE sims j i) := by
  unfold get_rec_indices
  rw [List.pairwise_reverse]
  exact (argsort_pairwise sims).sublist (List.drop_sublist _ _)

theorem rsi_indices_length (scores : List ℚ) (top_n : Nat) :
    (rsi_indices scores top_n).length = min top_n scores.length := by
  unfold rsi_indices
  rw [List.length_take, List.length_reverse, length_argsort]

theorem mem_rsi_indices {scores : List ℚ} {top_n i : Nat}
    (h : i ∈ rsi_indices scores top_n) : i < scores.length := by
  unfold rsi_indices at h
  have := List.take_subset _ _ h
  rw [List.mem_reverse] at this
  exact mem_argsort.mp this

theorem rsi_indices_pairwise (scores : List ℚ) (top_n : Nat) :
    (rsi_indices scores top_n).Pairwise (fun i j => argsortLE scores j i) := by
  unfold rsi_indices
  refine List.Pairwise.sublist (List.take_sublist _ _) ?_
  rw [List.pairwise_reverse]
  exact argsort_pairwise scores

theorem filterMap_get?_length {α : Type} (data : List α) :
    ∀ idxs : List Nat, (∀ i ∈ idxs, i < data.length) →
      (idxs.filterMap (fun i => data.get? i)).length = idxs.length
  | [], _ => rfl
  | i :: t, h => by
    have hi : i < data.length := h i (List.mem_cons_self i t)
    simp only [List.filterMap_cons, List.get?_eq_get hi, List.length_cons]
    rw [filterMap_get?_length data t (fun j hj => h j (List.mem_cons_of_mem i hj))]

theorem get_recommendations_length {α : Type} (sims : List ℚ) (data : List α)
    (h : sims.length = data.length) :
    (get_recommendations sims data).length = min data.length 50 := by
  unfold get_recommendations
  rw [filterMap_get?_length data _ (fun i hi => h ▸ mem_get_rec_indices hi)]
  rw [get_rec_indices_length, h]

/-- The filtering step shared by the partial-extraction claims: whenever at
least one of the two keyword extractions fails, `recommend_complementary_products`
applies the fallback (raw-attribute) filter. -/
theorem rcp_yes_fallback (ids : List Nat) (reason : String) (data : List Row) (sd : Row)
    (hguard : ids.all (fun pid => data.any (fun r => r.id == pid)) = true)
    (hfind : data.find? (fun r => ids.contains r.id) = some sd)
    (hpart : extracted_color (pyLower reason) = none ∨ extracted_usage (pyLower reason) = none) :
    recommend_complementary_products ids "yes" reason data =
      some ((data.filter (fallbackPred sd)).map projRow) := by
  have hact : activePred reason sd = fallbackPred sd := by
    unfold activePred
    rcases hpart with h | h
    · rw [h]
    · rw [h]
      cases extracted_color (pyLower reason) <;> rfl
  unfold recommend_complementary_products
  rw [if_pos rfl, if_pos hguard, hfind]
  show some ((data.filter (activePred reason sd)).map projRow) = _
  rw [hact]

/-- Every row passing the active filter agrees with the selected row's
subcategory up to lowercasing, in both branches. -/
theorem activePred_subCategory {reason : String} {sd r : Row}
    (h : activePred reason sd r = true) :
    (pyLower r.subCategory) = (pyLower sd.subCategory) := by
  unfold activePred at h
  cases hc : extracted_color (pyLower reason) with
  | none =>
    rw [hc] at h
    unfold fallbackPred at h
    simp only [Bool.and_eq_true, beq_iff_eq] at h
    rw [h.2]
  | some c =>
    cases hu : extracted_usage (pyLower reason) with
    | none =>
      rw [hc, hu] at h
      unfold fallbackPred at h
      simp only [Bool.and_eq_true, beq_iff_eq] at h
      rw [h.2]
    | some u =>
      rw [hc, hu] at h
      unfold extractedPred at h
      simp only [Bool.and_eq_true, beq_iff_eq] at h
      exact h.2

/-- When `recommend_complementary_products` returns successfully for a "yes"
decision, its result is the active filter of the catalog, projected. -/
theorem rcp_yes_eq (ids : List Nat) (reason : String) (data : List Row) (sd : Row)
    (res : List ProjRow)
    (hres : recommend_complementary_products ids "yes" reason data = some res)
    (hfind : data.find? (fun r => ids.contains r.id) = some sd) :
    res = (data.filter (activePred reason sd)).map projRow := by
  unfold recommend_complementary_products at hres
  rw [if_pos rfl] at hres
  by_cases hg : (ids.all (fun pid => data.any (fun r => r.id == pid))) = true
  · rw [if_pos hg, hfind] at hres
    exact (Option.some.inj hres).symm
  · rw [if_neg hg] at hres
    exact absurd hres (by simp)

/-! ## The claims -/

/-- C1 (amended): for every list of generative-response fragments, if the
fence-stripped concatenation does not parse as a JSON object (malformed
payload, non-JSON text, or a non-object value, on which `dict.get` raises
inside the `try`), `get_combination_feedback_parse` returns decision
`"Unknown"` — capital U — and reason `"Response parsing error"`; if it
parses as an object missing both fields, the defaults `"Unknown"` /
`"No reason provided"` are returned.  In every case a well-formed pair is
returned and no exception reaches the caller (the function is total).  The
claim's literal strings `decision="unknown"` and reason `"parsing error"`
never occur, and the missing-fields case does not yield a parse-error
reason at all. -/
theorem C1_parse_failure_amended (fragments : List String) :
    ((∀ fields, json_loads (cleanResponse fragments) ≠ some (JValue.jobj fields)) →
      get_combination_feedback_parse fragments =
        (JValue.jstr "Unknown", JValue.jstr "Response parsing error")) ∧
    (∀ fields, json_loads (cleanResponse fragments) = some (JValue.jobj fields) →
      objGet fields "decision" = none → objGet fields "reason" = none →
      get_combination_feedback_parse fragments =
        (JValue.jstr "Unknown", JValue.jstr "No reason provided")) := by
  constructor
  · intro h
    unfold get_combination_feedback_parse
    rcases hj : json_loads (cleanResponse fragments) with _ | v
    · rfl
    · cases v with
      | jobj fields => exact absurd hj (h fields)
      | jnull => rfl
      | jbool b => rfl
      | jnum s => rfl
      | jstr s => rfl
      | jarr xs => rfl
  · intro fields hj hd hr
    have hstep : get_combination_feedback_parse fragments =
        ((objGet fields "decision").getD (JValue.jstr "Unknown"),
         (objGet fields "reason").getD (JValue.jstr "No reason provided")) := by
      unfold get_combination_feedback_parse
      rw [hj]
    rw [hstep, hd, hr]
    rfl

/-- C1 witness: the fragment list `["nope"]` is non-JSON text; the function
returns the generic error pair. -/
theorem C1_parse_failure_witness :
    get_combination_feedback_parse ["nope"] =
      (JValue.jstr "Unknown", JValue.jstr "Response parsing error") :=
  (C1_parse_failure_amended ["nope"]).1 (by
    intro fields h
    rw [show json_loads (cleanResponse ["nope"]) = none from rfl] at h
    exact Option.noConfusion h)

/-- C1 counterexample: the response text `"{}"` is, after fence-stripping,
not a valid payload with string fields `decision` and `reason` (both fields
are missing), yet the function returns decision `"Unknown"` — not
`"unknown"` — and reason `"No reason provided"` — not `"parsing error"`. -/
theorem C1_parse_counterexample :
    get_combination_feedback_parse ["\x7b\x7d"] =
      (JValue.jstr "Unknown", JValue.jstr "No reason provided") ∧
    (get_combination_feedback_parse ["\x7b\x7d"]).1 ≠ JValue.jstr "unknown" ∧
    (get_combination_feedback_parse ["\x7b\x7d"]).2 ≠ JValue.jstr "parsing error" := by
  refine ⟨rfl, ?_, ?_⟩
  · intro h
    rw [show (get_combination_feedback_parse ["\x7b\x7d"]).1 = JValue.jstr "Unknown"
      from rfl] at h
    injection h with h2
    exact absurd h2 (by decide)
  · intro h
    rw [show (get_combination_feedback_parse ["\x7b\x7d"]).2 = JValue.jstr "No reason provided"
      from rfl] at h
    injection h with h2
    exact absurd h2 (by decide)

/-- C2: for every decision different from `"yes"` and every rationale,
catalog and selected ids, `recommend_complementary_products` returns the
empty sequence (and raises nothing: the non-"yes" branch is total). -/
theorem C2_non_yes_empty (ids : List Nat) (decision reason : String) (data : List Row)
    (h : decision ≠ "yes") :
    recommend_complementary_products ids decision reason data = some [] := by
  unfold recommend_complementary_products
  rw [if_neg h]

/-- C2 witness at decision `"no"` on the scenario catalog. -/
theorem C2_non_yes_empty_witness :
    recommend_complementary_products [1, 3] "no" "looks bad together"
      [rowA, rowB, rowC] = some [] :=
  C2_non_yes_empty [1, 3] "no" "looks bad together" [rowA, rowB, rowC] (by decide)

/-- C3 (amended): on an empty or fully out-of-vocabulary query the term-count
vector over the fitted vocabulary is zero, hence the scikit-learn score
vector is all zeros — and `get_recommendations` then does NOT return an
empty result: it returns `min n 50` catalog rows (the last rows of the
catalog, in reverse order), a non-empty result for every non-empty catalog.
Only the "does not raise" half of the original claim holds (the embedding is
total); the "returns an empty result" half is false. -/
theorem C3_oov_amended {α : Type} (vocab queryTerms : List String) (data : List α)
    (hoov : ∀ t ∈ queryTerms, t ∉ vocab) (hne : data ≠ []) :
    queryTermCounts vocab queryTerms = List.replicate vocab.length 0 ∧
    get_recommendations (zeroQuerySimilarities data.length) data ≠ [] := by
  constructor
  · refine List.eq_replicate_iff.mpr ⟨?_, ?_⟩
    · simp [queryTermCounts]
    · intro b hb
      rcases List.mem_map.mp hb with ⟨t, ht, rfl⟩
      exact List.count_eq_zero.mpr (fun hmem => hoov t hmem ht)
  · intro hnil
    have h1 := get_recommendations_length (zeroQuerySimilarities data.length) data
      (by simp [zeroQuerySimilarities])
    rw [hnil] at h1
    have h2 : 0 < data.length := List.length_pos.mpr hne
    have h3 : 0 < min data.length 50 := lt_min h2 (by norm_num)
    simp only [List.length_nil] at h1
    exact absurd h1.symm (Nat.ne_of_gt h3)

/-- C3 witness: a query whose single term is out of vocabulary, against a
three-row catalog. -/
theorem C3_oov_witness :
    queryTermCounts ["shirt", "dress"] ["qqq"] =
      List.replicate (["shirt", "dress"] : List String).length 0 ∧
    get_recommendations (zeroQuerySimilarities (["P1", "P2", "P3"] : List String).length)
      ["P1", "P2", "P3"] ≠ [] :=
  C3_oov_amended ["shirt", "dress"] ["qqq"] ["P1", "P2", "P3"] (by decide) (by decide)

/-- C3 counterexample: with the all-zero score vector of an empty or
out-of-vocabulary query over a three-row catalog, `get_recommendations`
returns the three rows in reverse order — not the empty result the claim
requires. -/
theorem C3_oov_counterexample :
    get_recommendations (zeroQuerySimilarities 3) ["P1", "P2", "P3"] = ["P3", "P2", "P1"] ∧
    get_recommendations (zeroQuerySimilarities 3) ["P1", "P2", "P3"] ≠ ([] : List String) :=
  ⟨by decide, by decide⟩

/-- C4: for every score vector (hence every text query) and every catalog,
`get_recommendations` returns at most 50 candidates, and the similarity
scores at the selected indices are non-increasing along the returned
sequence. -/
theorem C4_topk_nonincreasing {α : Type} (similarities : List ℚ) (data : List α) :
    (get_recommendations similarities data).length ≤ 50 ∧
    (get_rec_indices similarities).Pairwise
      (fun i j => similarities.getD j 0 ≤ similarities.getD i 0) := by
  constructor
  · have h1 : (get_recommendations similarities data).length ≤
        (get_rec_indices similarities).length := List.length_filterMap_le _ _
    rw [get_rec_indices_length] at h1
    exact h1.trans (Nat.min_le_right _ _)
  · exact (get_rec_indices_pairwise similarities).imp (fun h => argsortLE_le h)

/-- C5 (amended): `recommend_similar_images` returns exactly
`min top_n n` pairs — `top_n` of them whenever the embedding table has at
least `top_n` rows, one per row otherwise — ordered by non-increasing
cosine-similarity score; but equal scores are returned in REVERSE table
order (`np.argsort(scores)[::-1]` reverses the ascending argsort, so the
tied row with the larger table index comes first), not in table order as
the claim states. -/
theorem C5_topn_amended (scores : List ℚ) (image_paths : List String) (top_n : Nat) :
    (recommend_similar_images scores image_paths top_n).length = min top_n scores.length ∧
    (recommend_similar_images scores image_paths top_n).Pairwise
      (fun p q => q.2 ≤ p.2) ∧
    (∀ i j : Nat, i < j → scores.getD i 0 = scores.getD j 0 →
      i ∈ rsi_indices scores top_n → j ∈ rsi_indices scores top_n →
      List.Sublist [j, i] (rsi_indices scores top_n)) := by
  refine ⟨?_, ?_, ?_⟩
  · unfold recommend_similar_images
    rw [List.length_map, rsi_indices_length]
  · unfold recommend_similar_images
    exact List.Pairwise.map _ (fun a b hab => argsortLE_le hab)
      (rsi_indices_pairwise scores top_n)
  · intro i j hij heq hi hj
    have hnr : ¬ argsortLE scores j i := by
      rintro (h | ⟨h, hle⟩)
      · rw [heq] at h
        exact lt_irrefl _ h
      · omega
    exact pairwise_pair_sublist (rsi_indices_pairwise scores top_n) hj hi
      (Nat.ne_of_lt hij).symm hnr

/-- C5 witness: a two-row table with tied scores and `top_n = 2`: both rows
are returned (length `min 2 2`), with the second table row first. -/
theorem C5_topn_witness :
    (recommend_similar_images [(1 : ℚ), 1] ["a", "b"] 2).length = min 2 2 ∧
    List.Sublist [1, 0] (rsi_indices [(1 : ℚ), 1] 2) :=
  ⟨(C5_topn_amended [(1 : ℚ), 1] ["a", "b"] 2).1,
   (C5_topn_amended [(1 : ℚ), 1] ["a", "b"] 2).2.2 0 1 (by decide) (by decide)
     (by decide) (by decide)⟩

/-- C5 counterexample: two table rows with equal scores are returned in
reverse table order — `[("b", 1), ("a", 1)]` — not in table order as the
claim's tie-breaking rule states. -/
theorem C5_tie_counterexample :
    recommend_similar_images [(1 : ℚ), 1] ["a", "b"] 2 = [("b", 1), ("a", 1)] ∧
    recommend_similar_images [(1 : ℚ), 1] ["a", "b"] 2 ≠ [("a", 1), ("b", 1)] :=
  ⟨by decide, by decide⟩

/-- C6 (amended): the fallback to the first selected product's raw catalog
attributes triggers whenever AT LEAST ONE of the colour and usage
extractions fails — not only when both fail.  When exactly one succeeds the
partial extraction is indeed discarded (not mixed): the result is exactly
the raw-attribute fallback filter. -/
theorem C6_fallback_amended (ids : List Nat) (reason : String) (data : List Row) (sd : Row)
    (hguard : ids.all (fun pid => data.any (fun r => r.id == pid)) = true)
    (hfind : data.find? (fun r => ids.contains r.id) = some sd)
    (hpart : extracted_color (pyLower reason) = none ∨
      extracted_usage (pyLower reason) = none) :
    recommend_complementary_products ids "yes" reason data =
      some ((data.filter (fallbackPred sd)).map projRow) :=
  rcp_yes_fallback ids reason data sd hguard hfind hpart

/-- C6 witness: rationale `"blue!"` — colour extraction succeeds, usage
extraction fails — and the result is the fallback filter of the catalog. -/
theorem C6_fallback_witness :
    recommend_complementary_products [1] "yes" "blue!" [rowX, rowY] =
      some ((([rowX, rowY] : List Row).filter (fallbackPred rowX)).map projRow) :=
  C6_fallback_amended [1] "blue!" [rowX, rowY] rowX (by decide) (by decide)
    (Or.inr (by decide))

/-- C6 counterexample: with rationale `"blue!"` the colour extraction
succeeds (`some "blue"`) while the usage extraction fails, so per the claim
the fallback must NOT trigger; yet the function returns exactly the
raw-attribute fallback filter — the empty list — discarding the extracted
colour: `rowY` matches the extracted colour and every attribute of the
selected row case-insensitively, but is not returned. -/
theorem C6_partial_counterexample :
    extracted_color (pyLower "blue!") = some "blue" ∧
    extracted_usage (pyLower "blue!") = none ∧
    recommend_complementary_products [1] "yes" "blue!" [rowX, rowY] =
      some ((([rowX, rowY] : List Row).filter (fallbackPred rowX)).map projRow) ∧
    recommend_complementary_products [1] "yes" "blue!" [rowX, rowY] = some [] ∧
    pyLower rowY.baseColour = "blue" ∧
    pyLower rowY.usage = pyLower rowX.usage ∧
    pyLower rowY.gender = pyLower rowX.gender ∧
    pyLower rowY.subCategory = pyLower rowX.subCategory :=
  ⟨by decide, by decide, by decide, by decide, by decide, by decide, by decide, by decide⟩

/-- C7 (amended): every product returned by a successful "yes" run of
`recommend_complementary_products` matches the subcategory (lowercased) of
the FIRST selected product, in both filter branches.  In the A/B/C scenario
the first selected product is the topwear item A, so the function returns
the topwear items A and B and excludes the bottomwear item C — the opposite
of the claimed behaviour. -/
theorem C7_subcategory_amended (ids : List Nat) (reason : String) (data : List Row)
    (sd : Row) (res : List ProjRow) (p : ProjRow)
    (hres : recommend_complementary_products ids "yes" reason data = some res)
    (hfind : data.find? (fun r => ids.contains r.id) = some sd)
    (hp : p ∈ res) :
    pyLower p.subCategory = pyLower sd.subCategory := by
  have h2 := rcp_yes_eq ids reason data sd res hres hfind
  subst h2
  rcases List.mem_map.mp hp with ⟨r, hr, rfl⟩
  exact activePred_subCategory (List.mem_filter.mp hr).2

/-- C7 witness: in the A/B/C scenario, the returned row B matches A's
subcategory (topwear). -/
theorem C7_subcategory_witness :
    pyLower (projRow rowB).subCategory = pyLower rowA.subCategory :=
  C7_subcategory_amended [1, 3] "blue and casual" [rowA, rowB, rowC] rowA
    [projRow rowA, projRow rowB] (projRow rowB) (by decide) (by decide) (by decide)

/-- C7 counterexample: in the claimed scenario — catalog A, B (topwear
duplicates of A) and C (bottomwear), selected pair (A, C), decision "yes",
rationale mentioning "blue" and "casual" — the function returns A and B,
i.e. it INCLUDES the topwear duplicate B and EXCLUDES the bottomwear
product C, contradicting the claim. -/
theorem C7_scenario_counterexample :
    recommend_complementary_products [1, 3] "yes" "blue and casual" [rowA, rowB, rowC] =
      some [projRow rowA, projRow rowB] ∧
    projRow rowB ∈ [projRow rowA, projRow rowB] ∧
    projRow rowC ∉ [projRow rowA, projRow rowB] ∧
    rowC.subCategory = "Bottomwear" ∧ rowB.subCategory = rowA.subCategory :=
  ⟨by decide, by decide, by decide, by decide, by decide⟩

/-- C8 (amended): when two indexed products have equal cosine-similarity
scores and both reach the returned top-50 index sequence, the one with the
HIGHER catalog index comes first: `argsort()[-50:][::-1]` reverses the
ascending (stable) argsort, so ties appear in reverse catalog order, not in
catalog order as the claim states. -/
theorem C8_tie_amended (similarities : List ℚ) {i j : Nat} (hij : i < j)
    (heq : similarities.getD i 0 = similarities.getD j 0)
    (hi : i ∈ get_rec_indices similarities)
    (hj : j ∈ get_rec_indices similarities) :
    List.Sublist [j, i] (get_rec_indices similarities) := by
  have hp : (List.drop (similarities.length - 50) (argsort similarities)).Pairwise
      (argsortLE similarities) :=
    (argsort_pairwise similarities).sublist (List.drop_sublist _ _)
  unfold get_rec_indices at hi hj ⊢
  rw [List.mem_reverse] at hi hj
  have hnr : ¬ argsortLE similarities j i := by
    rintro (h | ⟨h, hle⟩)
    · rw [heq] at h
      exact lt_irrefl _ h
    · omega
  have hsub := pairwise_pair_sublist hp hi hj (Nat.ne_of_lt hij) hnr
  simpa using hsub.reverse

/-- C8 witness: two products with equal scores; the higher index 1 precedes
index 0 in the returned index sequence. -/
theorem C8_tie_witness :
    ([(1 : ℚ), 1]).getD 0 0 = ([(1 : ℚ), 1]).getD 1 0 ∧
    List.Sublist [1, 0] (get_rec_indices [(1 : ℚ), 1]) :=
  ⟨by decide, C8_tie_amended [(1 : ℚ), 1] (by decide) (by decide) (by decide) (by decide)⟩

/-- C8 counterexample: two products with equal scores are returned as
`[1, 0]` — higher catalog index first — not `[0, 1]` as the claim's
"lower catalog index first" tie-breaking states. -/
theorem C8_tie_counterexample :
    get_rec_indices [(1 : ℚ), 1] = [1, 0] ∧
    get_rec_indices [(1 : ℚ), 1] ≠ [0, 1] ∧
    ([(1 : ℚ), 1]).getD 0 0 = ([(1 : ℚ), 1]).getD 1 0 :=
  ⟨by decide, by decide, by decide⟩

/-- C9 (amended): in the fallback branch the gender predicate compares the
raw catalog gender column to the LOWERCASED gender of the first selected
product, so no row carrying the selected product's own gender string can
match once that string is altered by lowercasing (e.g. `"Men"`).  Hence
when every catalog row carries the selected product's gender string, the
fallback returns the empty sequence.  The original claim's unconditional
version is false: a row whose raw gender is already the lowercased form
(e.g. `"men"` in a catalog whose selected row has `"Men"`) still matches. -/
theorem C9_gender_amended (ids : List Nat) (reason : String) (data : List Row) (sd : Row)
    (hguard : ids.all (fun pid => data.any (fun r => r.id == pid)) = true)
    (hfind : data.find? (fun r => ids.contains r.id) = some sd)
    (hpart : extracted_color (pyLower reason) = none ∨
      extracted_usage (pyLower reason) = none)
    (hgender : ∀ r ∈ data, r.gender = sd.gender)
    (hupper : pyLower sd.gender ≠ sd.gender) :
    recommend_complementary_products ids "yes" reason data = some [] := by
  rw [rcp_yes_fallback ids reason data sd hguard hfind hpart]
  have hf : data.filter (fallbackPred sd) = [] := by
    rw [List.filter_eq_nil_iff]
    intro r hr hpred
    unfold fallbackPred at hpred
    simp only [Bool.and_eq_true, beq_iff_eq] at hpred
    exact hupper ((hpred.1.2).symm.trans (hgender r hr))
  rw [hf]
  rfl

/-- C9 witness: a one-row catalog whose only (and selected) row has gender
`"Men"`; the fallback returns the empty sequence. -/
theorem C9_gender_witness :
    recommend_complementary_products [1] "yes" "zzz" [rowG] = some [] :=
  C9_gender_amended [1] "zzz" [rowG] rowG (by decide) (by decide)
    (Or.inl (by decide)) (by decide) (by decide)

/-- C9 counterexample: the selected row's gender `"Men"` contains an
uppercase letter, both extractions fail (fallback branch), yet the result
is NOT empty: the row `rowH`, whose raw gender is already `"men"`, matches
the lowercased selected gender together with all raw attributes. -/
theorem C9_gender_counterexample :
    rowG.gender = "Men" ∧ pyLower rowG.gender ≠ rowG.gender ∧
    extracted_color (pyLower "zzz") = none ∧
    extracted_usage (pyLower "zzz") = none ∧
    recommend_complementary_products [1] "yes" "zzz" [rowG, rowH] =
      some [projRow rowH] ∧
    recommend_complementary_products [1] "yes" "zzz" [rowG, rowH] ≠ some [] :=
  ⟨by decide, by decide, by decide, by decide, by decide, by decide⟩

/-- C10: `recommend_complementary_products` never excludes the selected
products: any catalog row — in particular a selected one — whose attributes
satisfy the active filter appears, projected to the five display columns,
in the returned sequence. -/
theorem C10_selected_included (ids : List Nat) (reason : String) (data : List Row)
    (sd r : Row) (res : List ProjRow)
    (hres : recommend_complementary_products ids "yes" reason data = some res)
    (hfind : data.find? (fun r => ids.contains r.id) = some sd)
    (hr : r ∈ data) (hrid : r.id ∈ ids)
    (hpred : activePred reason sd r = true) :
    projRow r ∈ res := by
  have h2 := rcp_yes_eq ids reason data sd res hres hfind
  subst h2
  exact List.mem_map_of_mem projRow (List.mem_filter.mpr ⟨hr, hpred⟩)

/-- C10 witness: a selected row whose raw attributes satisfy its own
fallback filter appears in the result. -/
theorem C10_selected_included_witness :
    projRow rowW ∈ [projRow rowW] :=
  C10_selected_included [1] "zzz" [rowW] rowW rowW [projRow rowW]
    (by decide) (by decide) (by decide) (by decide) (by decide)

end FashionRec
